import Mathlib

/-!
Verification of the session-aware orchestration core
(`SESSION_AWARE_ORCHESTRATION_SYSTEM.py`).

The development shallowly embeds the Python classes `SessionManager`,
`SessionWebSocketServer` and `SessionDatabase`:

* Python values that flow through the system (dict keys, update values,
  message payload fields) are modelled by `Val`, built over scalar
  values `SVal`.  Timestamps (`datetime`) are modelled as exact
  rationals `ℚ`; `datetime.now()` becomes an explicit `now : ℚ`
  parameter threaded through every operation that reads the clock.
* Python objects are mutable and shared by reference, which matters for
  `get_all_sessions` (it copies the list of references, not the
  records).  The registry is therefore modelled with an explicit heap:
  `SessionManager.heap` is the object store (a `Session` object lives
  at its index) and `active_sessions` is the insertion-ordered dict
  mapping a session-id key to the index of its object.
* Exceptions are modelled with `Except`; the websocket send channel is
  modelled by the list of replies an operation produces.
-/

/-- Scalar Python/JSON values: `None`, booleans, strings, numbers, and
`datetime` objects (modelled as exact rationals). -/
inductive SVal where
  | vnone
  | vbool (b : Bool)
  | vstr (s : String)
  | vnum (q : ℚ)
  | vtime (t : ℚ)
  deriving DecidableEq

/-- Python/JSON values: a scalar, an object (string-keyed dict of
scalars) or an array of scalars.  One nesting level is enough for every
value the orchestration system constructs or inspects. -/
inductive Val where
  | atom (a : SVal)
  | vdict (kvs : List (String × SVal))
  | varr (xs : List SVal)
  deriving DecidableEq

/-- Association-list lookup, the model of Python's `d[k]` / `k in d`
(first binding wins; Python dicts have unique keys). -/
def lookupKey {κ α : Type} [DecidableEq κ] (k : κ) : List (κ × α) → Option α
  | [] => none
  | (k2, v) :: rest => if k2 = k then some v else lookupKey k rest

/-- Model of `data.get(key)` on a parsed JSON object: the bound value,
or Python `None` when the key is absent. -/
def dictGet (data : List (String × Val)) (key : String) : Val :=
  match lookupKey key data with
  | some v => v
  | none => .atom .vnone

/-- Model of `data.get(key, default)`. -/
def dictGetD (data : List (String × Val)) (key : String) (dflt : Val) : Val :=
  match lookupKey key data with
  | some v => v
  | none => dflt

/-- The `Session` dataclass (source lines 17-25).  `last_activity` is a
`datetime` in every observable state (set by `register_session`, by
`load_sessions`, and re-set by `update_session` before it returns), so
it is typed as a timestamp here. -/
structure Session where
  session_id : Val
  user_id : Val
  status : Val
  current_task : Val
  progress : Val
  last_activity : ℚ
  resources_used : Val
  deriving DecidableEq

/-- The `SessionManager` registry state: `heap` is the Python object
store (a `Session` object is identified by its index) and
`active_sessions` is the insertion-ordered dict `session_id ↦ object`.
The `threading.Lock` serialises operations, so each operation is a pure
state transformer here. -/
structure SessionManager where
  heap : List Session
  active_sessions : List (Val × Nat)
  deriving DecidableEq

/-- The empty registry `SessionManager()`. -/
def SessionManager.init : SessionManager := ⟨[], []⟩

deriving instance DecidableEq for Except

/-- Model of `setattr(session, key, value)` guarded by
`hasattr(session, key)` (source lines 54-56): a recognized attribute
name is overwritten, any other name is ignored.  For `last_activity`
the stored value is the timestamp when one is given; this branch is
unobservable because `update_session` reassigns `last_activity := now`
immediately after the loop (source line 57). -/
def setattrSession (s : Session) (key : String) (v : Val) : Session :=
  if key = "session_id" then { s with session_id := v }
  else if key = "user_id" then { s with user_id := v }
  else if key = "status" then { s with status := v }
  else if key = "current_task" then { s with current_task := v }
  else if key = "progress" then { s with progress := v }
  else if key = "last_activity" then
    match v with
    | .atom (.vtime t) => { s with last_activity := t }
    | _ => s
  else if key = "resources_used" then { s with resources_used := v }
  else s

/-- Replace the object at heap index `r` (the model of mutating a
`Session` object in place). -/
def heapModify (f : Session → Session) : Nat → List Session → List Session
  | _, [] => []
  | 0, s :: rest => f s :: rest
  | n + 1, s :: rest => s :: heapModify f n rest

/-- `SessionManager.register_session` (source lines 32-47): if the id
is unregistered, allocate a fresh `Session` object with the default
field values and bind the id to it, returning `True`; otherwise return
`False` and leave the registry untouched. -/
def register_session (m : SessionManager) (session_id user_id : Val) (now : ℚ) :
    Bool × SessionManager :=
  match lookupKey session_id m.active_sessions with
  | some _ => (false, m)
  | none =>
      let s : Session :=
        { session_id := session_id
          user_id := user_id
          status := .atom (.vstr "active")
          current_task := .atom (.vstr "initializing")
          progress := .atom (.vnum 0)
          last_activity := now
          resources_used := .vdict [] }
      (true, { heap := m.heap ++ [s],
               active_sessions := m.active_sessions ++ [(session_id, m.heap.length)] })

/-- First key of a kwargs mapping that collides with a declared
parameter of `update_session(self, session_id, **kwargs)`: passing
`self` or `session_id` through `**` makes CPython raise `TypeError:
got multiple values for argument ...` during argument binding, before
the function body runs. -/
def collidingKey : List (String × Val) → Option String
  | [] => none
  | (k, _) :: rest =>
      if k = "self" ∨ k = "session_id" then some k else collidingKey rest

/-- The call `update_session(session_id, **kwargs)` (source lines
49-59), argument binding included: a kwargs mapping that names `self`
or `session_id` collides with a declared parameter and raises
`TypeError` at the call site — the body never runs, no lock is taken
and nothing is mutated.  Otherwise, if the id is registered, its
`Session` object is mutated in place — every kwarg applied through the
`hasattr`/`setattr` loop, then `last_activity = now` — and `True` is
returned; an unknown id returns `False` with no effect. -/
def update_session (m : SessionManager) (session_id : Val)
    (kwargs : List (String × Val)) (now : ℚ) :
    Except String (Bool × SessionManager) :=
  match collidingKey kwargs with
  | some k =>
      .error ("TypeError: update_session() got multiple values for argument " ++ k)
  | none =>
      match lookupKey session_id m.active_sessions with
      | none => .ok (false, m)
      | some r =>
          let f : Session → Session := fun s =>
            { kwargs.foldl (fun acc kv => setattrSession acc kv.1 kv.2) s with
              last_activity := now }
          .ok (true, { m with heap := heapModify f r m.heap })

/-- `SessionManager.get_session_status` (source lines 61-64): the
current state of the object bound to the id, or `None`. -/
def get_session_status (m : SessionManager) (session_id : Val) : Option Session :=
  (lookupKey session_id m.active_sessions).bind (fun r => m.heap.get? r)

/-- `SessionManager.get_all_sessions` (source lines 66-69):
`list(self.active_sessions.values())` copies the dict's value view into
a fresh list, but the elements are the live `Session` objects
themselves — here, their heap indices. -/
def get_all_sessions (m : SessionManager) : List Nat :=
  m.active_sessions.map (·.2)

/-- Reading a previously returned `get_all_sessions` list against the
current heap: the field values the holder of the list observes. -/
def derefList (heap : List Session) (refs : List Nat) : List (Option Session) :=
  refs.map (fun r => heap.get? r)

/-- The idleness test of `cleanup_inactive_sessions` (source lines
78-79): `(current_time - last_activity).total_seconds() / 60 >
timeout_minutes`.  A dangling reference (impossible in a reachable
state) is treated as not expired, i.e. never deleted. -/
def sessionExpired (heap : List Session) (now timeout_minutes : ℚ) (r : Nat) : Bool :=
  match heap.get? r with
  | some s => decide ((now - s.last_activity) / 60 > timeout_minutes)
  | none => false

/-- Model of `del d[k]` on the registry dict. -/
def delKey (d : List (Val × Nat)) (k : Val) : List (Val × Nat) :=
  d.filter (fun kr => !(kr.1 = k : Bool))

/-- `SessionManager.cleanup_inactive_sessions` (source lines 71-84):
collect the ids of sessions idle strictly longer than
`timeout_minutes`, then delete each collected id from the dict.  The
Python function has no `return` statement, so its value is `None`,
modelled as the `none` in the second component (the collected id list
is printed, not returned). -/
def cleanup_inactive_sessions (m : SessionManager) (now timeout_minutes : ℚ) :
    SessionManager × Option (List Val) :=
  let inactive_sessions :=
    (m.active_sessions.filter
      (fun kr => sessionExpired m.heap now timeout_minutes kr.2)).map (·.1)
  ({ m with active_sessions := inactive_sessions.foldl delKey m.active_sessions },
   none)

/-- Reachable-state invariant of the registry: dict keys are unique
(Python dict), distinct keys are bound to distinct objects, and every
bound reference points into the heap. -/
def SessionManager.WF (m : SessionManager) : Prop :=
  (m.active_sessions.map (·.1)).Nodup ∧
  (m.active_sessions.map (·.2)).Nodup ∧
  ∀ kr ∈ m.active_sessions, kr.2 < m.heap.length

/-- Outcome of `json.loads(message)` on an inbound websocket payload:
the text fails to parse, parses to a non-object (on which
`data.get('command')` raises `AttributeError`), or parses to a JSON
object. -/
inductive InMsg where
  | malformed
  | nonObject (v : Val)
  | payload (data : List (String × Val))
  deriving DecidableEq

/-- The JSON replies `handle_message` serialises with `json.dumps` and
sends to the requesting client, one constructor per literal in the
source (lines 116-120, 126-130, 146-149, 152-155, 157-160).  The
per-session dicts built for `sessions_data` carry all seven `Session`
fields, so they are represented by `Session` itself. -/
inductive Reply where
  | registration_response (success : Bool) (session_id : Val)
  | update_response (success : Bool) (session_id : Val)
  | sessions_data (sessions : List Session)
  | error_reply (message : String)
  deriving DecidableEq

/-- The exception classes distinguished by `handle_message`'s two
`except` clauses: `json.JSONDecodeError`, and every other `Exception`
(carrying its `str(e)` rendering). -/
inductive PyErr where
  | jsonDecodeError
  | otherError (msg : String)
  deriving DecidableEq

/-- The body of the `try` block of
`SessionWebSocketServer.handle_message` (source lines 108-150): decode
the command discriminator and dispatch.  Raises (`Except.error`) where
the Python body raises: `data.get` on a non-object (`AttributeError`),
and `**updates` on a non-mapping `updates` value (`TypeError`).  An
object whose `command` matches none of the three branches falls
through the `if`/`elif` chain: no reply is produced. -/
def handle_body (m : SessionManager) (msg : InMsg) (now : ℚ) :
    Except PyErr (SessionManager × List Reply) :=
  match msg with
  | .malformed => .error .jsonDecodeError
  | .nonObject _ =>
      .error (.otherError "AttributeError: object has no attribute get")
  | .payload data =>
      let command := dictGet data "command"
      if command = .atom (.vstr "register_session") then
        let session_id := dictGet data "session_id"
        let user_id := dictGet data "user_id"
        let res := register_session m session_id user_id now
        .ok (res.2, [.registration_response res.1 session_id])
      else if command = .atom (.vstr "update_session") then
        let session_id := dictGet data "session_id"
        let updates := dictGetD data "updates" (.vdict [])
        match updates with
        | .vdict kvs =>
            match update_session m session_id
              (kvs.map (fun kv => (kv.1, Val.atom kv.2))) now with
            | .ok res => .ok (res.2, [.update_response res.1 session_id])
            | .error e => .error (.otherError e)
        | _ =>
            .error (.otherError "TypeError: argument after ** must be a mapping")
      else if command = .atom (.vstr "get_sessions") then
        let sessions := get_all_sessions m
        let session_data :=
          sessions.filterMap (fun r => m.heap.get? r)
        .ok (m, [.sessions_data session_data])
      else
        .ok (m, [])

/-- `SessionWebSocketServer.handle_message` (source lines 106-160):
the `try` body wrapped by the two `except` clauses, each of which
replies with an `error` payload to the sender instead of letting the
exception escape (so the connection's receive loop keeps running). -/
def handle_message (m : SessionManager) (msg : InMsg) (now : ℚ) :
    SessionManager × List Reply :=
  match handle_body m msg now with
  | .ok res => res
  | .error .jsonDecodeError => (m, [.error_reply "Invalid JSON format"])
  | .error (.otherError e) => (m, [.error_reply e])

/-- The send loop of `broadcast_update` (source lines 168-172): clients
are modelled by identifiers, and `closed c = true` means `client.send`
raises `websockets.exceptions.ConnectionClosed` for client `c`.  The
result is the list of performed sends (client paired with the message)
and the `disconnected_clients` set collected by the loop. -/
def broadcastLoop (closed : Nat → Bool) (message : Val) :
    List Nat → List (Nat × Val) × List Nat
  | [] => ([], [])
  | c :: rest =>
      let res := broadcastLoop closed message rest
      if closed c then (res.1, c :: res.2)
      else ((c, message) :: res.1, res.2)

/-- `SessionWebSocketServer.broadcast_update` (source lines 162-175):
skip everything when no client is connected, otherwise send the
serialised message to each client in turn, collecting the clients whose
send raised `ConnectionClosed`, and finally remove those from the
connected set (`self.clients -= disconnected_clients`).  Returns the
performed sends and the new connected set. -/
def broadcast_update (clients : List Nat) (closed : Nat → Bool) (message : Val) :
    List (Nat × Val) × List Nat :=
  if clients.isEmpty then ([], clients)
  else
    let res := broadcastLoop closed message clients
    (res.1, clients.filter (fun c => decide (c ∉ res.2)))

/-- One row of the `sessions` table (source lines 213-224): the eight
columns in order; `created_at` is the save-time clock reading (source
line 249), `resources_used` is a serialised blob kept structurally. -/
structure SessionRow where
  session_id : Val
  user_id : Val
  status : Val
  current_task : Val
  progress : Val
  created_at : ℚ
  last_activity : ℚ
  resources_used : Val
  deriving DecidableEq

/-- State of the sqlite backend as `save_session`/`load_sessions`
experience it: the `sqlite3` module is not importable (`ImportError`),
the database is reachable and holds the given rows, or
connecting/executing fails (an `sqlite3` operational error). -/
inductive SqliteBackend where
  | unavailable
  | avail (rows : List SessionRow)
  | ioFault
  deriving DecidableEq

/-- The row `save_session` writes for a session (source lines 243-252). -/
def rowOfSession (s : Session) (now : ℚ) : SessionRow :=
  { session_id := s.session_id
    user_id := s.user_id
    status := s.status
    current_task := s.current_task
    progress := s.progress
    created_at := now
    last_activity := s.last_activity
    resources_used := s.resources_used }

/-- `INSERT OR REPLACE` keyed by the `session_id` primary key: the
conflicting row (if any) is deleted and the new row inserted. -/
def upsertRow (rows : List SessionRow) (r : SessionRow) : List SessionRow :=
  rows.filter (fun x => !(x.session_id = r.session_id : Bool)) ++ [r]

/-- `SessionDatabase.save_session` (source lines 232-257): upsert the
session's row.  Only `ImportError` is caught (`except ImportError:
pass`), so a missing `sqlite3` module makes the call a no-op, while an
operational storage failure propagates as an exception. -/
def save_session (db : SqliteBackend) (s : Session) (now : ℚ) :
    Except String SqliteBackend :=
  match db with
  | .unavailable => .ok .unavailable
  | .avail rows => .ok (.avail (upsertRow rows (rowOfSession s now)))
  | .ioFault => .error "sqlite3.OperationalError: unable to open database file"

/-- Rebuild a `Session` from a stored row (source lines 272-280):
column 5 (`created_at`) is skipped by the constructor call. -/
def sessionOfRow (r : SessionRow) : Session :=
  { session_id := r.session_id
    user_id := r.user_id
    status := r.status
    current_task := r.current_task
    progress := r.progress
    last_activity := r.last_activity
    resources_used := r.resources_used }

/-- `SessionDatabase.load_sessions` (source lines 259-285): read every
row and rebuild the sessions.  Only `ImportError` is caught (returning
`[]`); an operational storage failure propagates as an exception. -/
def load_sessions (db : SqliteBackend) : Except String (List Session) :=
  match db with
  | .unavailable => .ok []
  | .avail rows => .ok (rows.map sessionOfRow)
  | .ioFault => .error "sqlite3.OperationalError: unable to open database file"

/-- The shutdown flush (source lines 310-315): save every session of
the given list in order, propagating the first exception. -/
def saveAllSessions (db : SqliteBackend) (now : ℚ) :
    List Session → Except String SqliteBackend
  | [] => .ok db
  | s :: rest =>
      match save_session db s now with
      | .ok db2 => saveAllSessions db2 now rest
      | .error e => .error e

lemma lookupKey_append_last {κ α : Type} [DecidableEq κ] (d : List (κ × α))
    (k : κ) (v : α) (h : lookupKey k d = none) :
    lookupKey k (d ++ [(k, v)]) = some v := by
  induction d with
  | nil => simp [lookupKey]
  | cons kv rest ih =>
      rw [lookupKey] at h
      by_cases hk : kv.1 = k
      · simp [hk] at h
      · cases kv with
        | mk k2 w =>
            simp only [List.cons_append, lookupKey]
            simp only [lookupKey, if_neg hk] at h ⊢
            exact ih h

lemma get?_append_length (l : List Session) (s : Session) :
    (l ++ [s]).get? l.length = some s := by
  induction l with
  | nil => rfl
  | cons a rest ih => exact ih

/-- C1: registering a fresh `session_id` succeeds and creates the
record with the default field values (`status='active'`,
`current_task='initializing'`, `progress=0.0`, empty `resources_used`,
`last_activity = now`); registering an already-present `session_id`
returns `false` and leaves the whole registry — in particular the
existing record's `user_id` — unchanged. -/
theorem C1_register_session_contract (m : SessionManager) (sid uid : Val) (now : ℚ) :
    (lookupKey sid m.active_sessions = none →
      (register_session m sid uid now).1 = true ∧
      get_session_status (register_session m sid uid now).2 sid =
        some { session_id := sid
               user_id := uid
               status := .atom (.vstr "active")
               current_task := .atom (.vstr "initializing")
               progress := .atom (.vnum 0)
               last_activity := now
               resources_used := .vdict [] }) ∧
    (lookupKey sid m.active_sessions ≠ none →
      (register_session m sid uid now).1 = false ∧
      (register_session m sid uid now).2 = m) := by
  constructor
  · intro h
    refine ⟨by simp [register_session, h], ?_⟩
    simp only [register_session, h, get_session_status]
    rw [lookupKey_append_last _ _ _ h]
    simp [get?_append_length]
  · intro h
    match hl : lookupKey sid m.active_sessions with
    | none => exact absurd hl h
    | some r => exact ⟨by simp [register_session, hl], by simp [register_session, hl]⟩

theorem C1_register_session_contract_witness :
    (register_session SessionManager.init (Val.atom (.vstr "s1"))
        (Val.atom (.vstr "u1")) 0).1 = true ∧
    (register_session (register_session SessionManager.init (Val.atom (.vstr "s1"))
        (Val.atom (.vstr "u1")) 0).2 (Val.atom (.vstr "s1"))
        (Val.atom (.vstr "u2")) 1).1 = false := by
  have h1 := C1_register_session_contract SessionManager.init
    (Val.atom (.vstr "s1")) (Val.atom (.vstr "u1")) 0
  have h2 := C1_register_session_contract
    (register_session SessionManager.init (Val.atom (.vstr "s1"))
      (Val.atom (.vstr "u1")) 0).2
    (Val.atom (.vstr "s1")) (Val.atom (.vstr "u2")) 1
  exact ⟨(h1.1 (by decide)).1, (h2.2 (by decide)).1⟩

/-- Last binding of `key` in a kwargs list (with unique keys this is
the only binding; with duplicates the last `setattr` wins, matching
dict construction). -/
def lookupLast (key : String) : List (String × Val) → Option Val
  | [] => none
  | (k, v) :: rest =>
      match lookupLast key rest with
      | some w => some w
      | none => if k = key then some v else none

lemma lookupLast_cons_getD (key k : String) (v : Val) (rest : List (String × Val))
    (dflt : Val) :
    (lookupLast key ((k, v) :: rest)).getD dflt =
      (lookupLast key rest).getD (if k = key then v else dflt) := by
  simp only [lookupLast]
  cases lookupLast key rest <;> [skip; simp]
  split_ifs <;> simp

lemma setattrSession_fields (s : Session) (k : String) (v : Val) :
    (setattrSession s k v).session_id = (if k = "session_id" then v else s.session_id) ∧
    (setattrSession s k v).user_id = (if k = "user_id" then v else s.user_id) ∧
    (setattrSession s k v).status = (if k = "status" then v else s.status) ∧
    (setattrSession s k v).current_task = (if k = "current_task" then v else s.current_task) ∧
    (setattrSession s k v).progress = (if k = "progress" then v else s.progress) ∧
    (setattrSession s k v).resources_used = (if k = "resources_used" then v else s.resources_used) := by
  simp only [setattrSession]
  split_ifs <;> subst_vars <;>
    cases v with
    | atom a => cases a <;> simp_all
    | vdict kvs => simp_all
    | varr xs => simp_all

lemma applyKwargs_field (get : Session → Val) (name : String)
    (hset : ∀ s k v, get (setattrSession s k v) = if k = name then v else get s)
    (kwargs : List (String × Val)) (s : Session) :
    get (kwargs.foldl (fun acc kv => setattrSession acc kv.1 kv.2) s) =
      (lookupLast name kwargs).getD (get s) := by
  induction kwargs generalizing s with
  | nil => simp [lookupLast]
  | cons kv rest ih =>
      obtain ⟨k, v⟩ := kv
      simp only [List.foldl_cons]
      rw [ih, hset, lookupLast_cons_getD]

lemma heapModify_get?_eq (f : Session → Session) (heap : List Session) (r : Nat) :
    (heapModify f r heap).get? r = (heap.get? r).map f := by
  induction heap generalizing r with
  | nil => cases r <;> simp [heapModify]
  | cons a rest ih =>
      cases r with
      | zero => simp [heapModify]
      | succ n => simpa [heapModify] using ih n

lemma heapModify_get?_ne (f : Session → Session) (heap : List Session) (r x : Nat)
    (h : x ≠ r) : (heapModify f r heap).get? x = heap.get? x := by
  induction heap generalizing r x with
  | nil => cases r <;> simp [heapModify]
  | cons a rest ih =>
      cases r with
      | zero =>
          cases x with
          | zero => exact absurd rfl h
          | succ n => simp [heapModify]
      | succ n =>
          cases x with
          | zero => simp [heapModify]
          | succ n2 =>
              simpa [heapModify] using ih n n2 (fun hc => h (by rw [hc]))

lemma lookupKey_mem {κ α : Type} [DecidableEq κ] (d : List (κ × α)) (k : κ) (v : α)
    (h : lookupKey k d = some v) : (k, v) ∈ d := by
  induction d with
  | nil => simp [lookupKey] at h
  | cons kv rest ih =>
      obtain ⟨k2, w⟩ := kv
      by_cases hk : k2 = k
      · subst hk
        rw [lookupKey, if_pos rfl] at h
        cases h
        exact List.mem_cons_self _ _
      · rw [lookupKey, if_neg hk] at h
        exact List.mem_cons_of_mem _ (ih h)

lemma Session.eq_of_fields {a b : Session}
    (h1 : a.session_id = b.session_id) (h2 : a.user_id = b.user_id)
    (h3 : a.status = b.status) (h4 : a.current_task = b.current_task)
    (h5 : a.progress = b.progress) (h6 : a.last_activity = b.last_activity)
    (h7 : a.resources_used = b.resources_used) : a = b := by
  cases a
  cases b
  simp_all

/-- Registry holding the single session `s1` of user `u1`, registered
at clock 0. -/
def regS1 : SessionManager :=
  (register_session SessionManager.init (Val.atom (.vstr "s1"))
    (Val.atom (.vstr "u1")) 0).2

lemma update_session_colliding (m : SessionManager) (sid : Val)
    (kwargs : List (String × Val)) (now : ℚ) (k : String)
    (hcol : collidingKey kwargs = some k) :
    update_session m sid kwargs now =
      .error ("TypeError: update_session() got multiple values for argument " ++ k) := by
  simp [update_session, hcol]

lemma update_session_notfound (m : SessionManager) (sid : Val)
    (kwargs : List (String × Val)) (now : ℚ)
    (hcol : collidingKey kwargs = none)
    (hr : lookupKey sid m.active_sessions = none) :
    update_session m sid kwargs now = .ok (false, m) := by
  simp [update_session, hcol, hr]

lemma update_session_found (m : SessionManager) (sid : Val)
    (kwargs : List (String × Val)) (now : ℚ) (r : Nat)
    (hcol : collidingKey kwargs = none)
    (hr : lookupKey sid m.active_sessions = some r) :
    update_session m sid kwargs now =
      .ok (true, { m with heap := heapModify (fun s => { kwargs.foldl (fun acc kv => setattrSession acc kv.1 kv.2) s with last_activity := now }) r m.heap }) := by
  simp [update_session, hcol, hr]

lemma collidingKey_none_not_session_id (kwargs : List (String × Val))
    (h : collidingKey kwargs = none) :
    lookupLast "session_id" kwargs = none := by
  induction kwargs with
  | nil => rfl
  | cons kv rest ih =>
      obtain ⟨k, v⟩ := kv
      rw [collidingKey] at h
      by_cases hk : k = "self" ∨ k = "session_id"
      · rw [if_pos hk] at h
        cases h
      · rw [if_neg hk] at h
        simp only [lookupLast, ih h]
        rw [if_neg (fun hc => hk (Or.inr hc))]

/-- Fixture: the session `s1` with the given `user_id`, `progress` and
`last_activity` (the other fields at their registration defaults), and
the one-session registry holding it — the states the update scenarios
below produce. -/
def s1Fixture (u p : Val) (t : ℚ) : Session :=
  { session_id := Val.atom (.vstr "s1")
    user_id := u
    status := Val.atom (.vstr "active")
    current_task := Val.atom (.vstr "initializing")
    progress := p
    last_activity := t
    resources_used := Val.vdict [] }

/-- Fixture registry holding exactly `s1Fixture u p t`. -/
def mgrFixture (u p : Val) (t : ℚ) : SessionManager :=
  { heap := [s1Fixture u p t], active_sessions := [(Val.atom (.vstr "s1"), 0)] }

/-- C2 counterexample: two recognized fields refute the claim as
stated.  `Update(s1, {last_activity: 99})` executed at clock 5
succeeds but leaves `last_activity` at 5, not the given 99 — line 57
of the source reassigns it with `datetime.now()` after the kwargs
loop.  And `Update(s1, {session_id: "s2"})` does not overwrite the
field and return true at all: the kwargs key collides with the
`session_id` parameter of `update_session(self, session_id, **kwargs)`
and the call raises `TypeError` during argument binding, before any
mutation. -/
theorem C2_counterexample :
    update_session regS1 (Val.atom (.vstr "s1"))
        [("last_activity", Val.atom (.vtime 99))] 5 =
      .ok (true, mgrFixture (Val.atom (.vstr "u1")) (Val.atom (.vnum 0)) 5) ∧
    (5 : ℚ) ≠ 99 ∧
    update_session regS1 (Val.atom (.vstr "s1"))
        [("session_id", Val.atom (.vstr "s2"))] 5 =
      .error "TypeError: update_session() got multiple values for argument session_id" := by
  refine ⟨by decide, by decide, by decide⟩

/-- C2 (amended): for a mapping that names `session_id` (or `self`),
the call `update_session(session_id, **m)` raises `TypeError` during
argument binding — the registry is not touched (through the hub this
surfaces as an `error` reply).  For every other mapping: on a
registered `session_id` the call returns `true`, overwrites every
recognized field named in `m` other than `last_activity` with the
(last) value given for it, ignores unknown field names, leaves
`session_id` unchanged (it cannot be named), sets `last_activity` to
the call time regardless of any value bound to it in `m` (hence
strictly greater than before whenever the clock advanced), and leaves
every other session unchanged; on an unregistered `session_id` it
returns `false` with no effect. -/
theorem C2_update_session_contract (m : SessionManager) (sid : Val)
    (kwargs : List (String × Val)) (now : ℚ) (hWF : m.WF) :
    (∀ k, collidingKey kwargs = some k →
      update_session m sid kwargs now =
        .error ("TypeError: update_session() got multiple values for argument " ++ k)) ∧
    (collidingKey kwargs = none →
      (lookupKey sid m.active_sessions = none →
        update_session m sid kwargs now = .ok (false, m)) ∧
      (∀ r s, lookupKey sid m.active_sessions = some r → m.heap.get? r = some s →
        ∃ m2, update_session m sid kwargs now = .ok (true, m2) ∧
          get_session_status m2 sid =
            some { session_id := s.session_id
                   user_id := (lookupLast "user_id" kwargs).getD s.user_id
                   status := (lookupLast "status" kwargs).getD s.status
                   current_task := (lookupLast "current_task" kwargs).getD s.current_task
                   progress := (lookupLast "progress" kwargs).getD s.progress
                   last_activity := now
                   resources_used := (lookupLast "resources_used" kwargs).getD s.resources_used } ∧
          (∀ k2, k2 ≠ sid →
            get_session_status m2 k2 = get_session_status m k2) ∧
          (s.last_activity < now →
            ∀ s2, get_session_status m2 sid = some s2 →
              s.last_activity < s2.last_activity))) := by
  refine ⟨fun k hk => update_session_colliding m sid kwargs now k hk, ?_⟩
  intro hcol
  refine ⟨fun hnone => update_session_notfound m sid kwargs now hcol hnone, ?_⟩
  intro r s hr hs
  refine ⟨_, update_session_found m sid kwargs now r hcol hr, ?_, ?_, ?_⟩
  · simp only [get_session_status]
    rw [hr, Option.some_bind, heapModify_get?_eq, hs, Option.map_some']
    refine congrArg some (Session.eq_of_fields ?_ ?_ ?_ ?_ ?_ ?_ ?_)
    · have h0 := applyKwargs_field (fun x => x.session_id) "session_id"
        (fun s0 k v => (setattrSession_fields s0 k v).1) kwargs s
      rw [collidingKey_none_not_session_id kwargs hcol] at h0
      simpa using h0
    · simpa using applyKwargs_field (fun x => x.user_id) "user_id"
        (fun s0 k v => (setattrSession_fields s0 k v).2.1) kwargs s
    · simpa using applyKwargs_field (fun x => x.status) "status"
        (fun s0 k v => (setattrSession_fields s0 k v).2.2.1) kwargs s
    · simpa using applyKwargs_field (fun x => x.current_task) "current_task"
        (fun s0 k v => (setattrSession_fields s0 k v).2.2.2.1) kwargs s
    · simpa using applyKwargs_field (fun x => x.progress) "progress"
        (fun s0 k v => (setattrSession_fields s0 k v).2.2.2.2.1) kwargs s
    · rfl
    · simpa using applyKwargs_field (fun x => x.resources_used) "resources_used"
        (fun s0 k v => (setattrSession_fields s0 k v).2.2.2.2.2) kwargs s
  · intro k2 hk2
    simp only [get_session_status]
    cases hl : lookupKey k2 m.active_sessions with
    | none => simp [hl]
    | some r2 =>
        have hmem1 := lookupKey_mem _ _ _ hr
        have hmem2 := lookupKey_mem _ _ _ hl
        have hr2ne : r2 ≠ r := by
          intro hcr
          have heq := List.inj_on_of_nodup_map hWF.2.1 hmem1 hmem2 (by simp [hcr])
          exact hk2 (congrArg Prod.fst heq.symm)
        simp only [hl, Option.some_bind]
        rw [heapModify_get?_ne _ _ _ _ hr2ne]
  · intro hlt s2 hs2
    simp only [get_session_status] at hs2
    rw [hr, Option.some_bind, heapModify_get?_eq, hs, Option.map_some'] at hs2
    injection hs2 with h
    rw [← h]
    exact hlt

theorem C2_update_session_contract_witness :
    update_session regS1 (Val.atom (.vstr "s1"))
        [("progress", Val.atom (.vnum 1))] 5 =
      .ok (true, mgrFixture (Val.atom (.vstr "u1")) (Val.atom (.vnum 1)) 5) ∧
    get_session_status (mgrFixture (Val.atom (.vstr "u1")) (Val.atom (.vnum 1)) 5)
      (Val.atom (.vstr "s1")) =
      some (s1Fixture (Val.atom (.vstr "u1")) (Val.atom (.vnum 1)) 5) := by
  have h := ((C2_update_session_contract regS1 (Val.atom (.vstr "s1"))
      [("progress", Val.atom (.vnum 1))] 5
      (by unfold SessionManager.WF; decide)).2 (by decide)).2 0
      { session_id := Val.atom (.vstr "s1")
        user_id := Val.atom (.vstr "u1")
        status := Val.atom (.vstr "active")
        current_task := Val.atom (.vstr "initializing")
        progress := Val.atom (.vnum 0)
        last_activity := 0
        resources_used := Val.vdict [] }
      (by decide) (by decide)
  obtain ⟨m2, hupd, hget, _, _⟩ := h
  have hconc : update_session regS1 (Val.atom (.vstr "s1"))
      [("progress", Val.atom (.vnum 1))] 5 =
      .ok (true, mgrFixture (Val.atom (.vstr "u1")) (Val.atom (.vnum 1)) 5) := by
    decide
  refine ⟨hconc, ?_⟩
  have hpair := hupd.symm.trans hconc
  injection hpair with hp
  injection hp with hb hm
  rw [hm] at hget
  rw [hget]
  decide

/-- Literal form of the session `s1` as registered at clock 0. -/
def sess1 : Session :=
  { session_id := Val.atom (.vstr "s1")
    user_id := Val.atom (.vstr "u1")
    status := Val.atom (.vstr "active")
    current_task := Val.atom (.vstr "initializing")
    progress := Val.atom (.vnum 0)
    last_activity := 0
    resources_used := Val.vdict [] }

/-- Registry literal holding exactly `sess1`. -/
def mgr1 : SessionManager :=
  { heap := [sess1], active_sessions := [(Val.atom (.vstr "s1"), 0)] }

/-- C5 counterexample: `user_id` is not immutable.  `hasattr(session,
"user_id")` is true and `user_id` does not collide with a parameter of
`update_session`, so `Update(s1, {user_id: "evil"})` runs and
overwrites the field set at registration (`"u1"`) with `"evil"`. -/
theorem C5_counterexample :
    update_session regS1 (Val.atom (.vstr "s1"))
        [("user_id", Val.atom (.vstr "evil"))] 5 =
      .ok (true, mgrFixture (Val.atom (.vstr "evil")) (Val.atom (.vnum 0)) 5) ∧
    (s1Fixture (Val.atom (.vstr "evil")) (Val.atom (.vnum 0)) 5).user_id =
      Val.atom (.vstr "evil") ∧
    Val.atom (.vstr "evil") ≠ Val.atom (.vstr "u1") := by
  refine ⟨by decide, by decide, by decide⟩

/-- C5 (amended): the `session_id` field is never changed by any
`Update` — a mapping that names `session_id` makes the call raise
`TypeError` during argument binding, before any mutation, and a call
that returns normally cannot have named it, so every record keeps its
`session_id`.  `user_id`, by contrast, is not immutable: it is
unchanged by every `Update` whose mapping does not name it, but an
`Update` that names `user_id` overwrites it (the counterexample). -/
theorem C5_identity_fields_preserved (m : SessionManager) (sid : Val)
    (kwargs : List (String × Val)) (now : ℚ) :
    ∀ res, update_session m sid kwargs now = Except.ok res →
      ∀ i, (res.2.heap.get? i).map Session.session_id =
            (m.heap.get? i).map Session.session_id ∧
        (lookupLast "user_id" kwargs = none →
          (res.2.heap.get? i).map Session.user_id =
            (m.heap.get? i).map Session.user_id) := by
  intro res hres i
  cases hcol : collidingKey kwargs with
  | some k =>
      rw [update_session_colliding m sid kwargs now k hcol] at hres
      cases hres
  | none =>
      have hsid := collidingKey_none_not_session_id kwargs hcol
      cases hr : lookupKey sid m.active_sessions with
      | none =>
          rw [update_session_notfound m sid kwargs now hcol hr] at hres
          cases hres
          exact ⟨rfl, fun _ => rfl⟩
      | some r =>
          rw [update_session_found m sid kwargs now r hcol hr] at hres
          cases hres
          dsimp only
          by_cases hir : i = r
          · subst hir
            rw [heapModify_get?_eq]
            cases hsi : m.heap.get? i with
            | none => exact ⟨rfl, fun _ => rfl⟩
            | some s =>
                constructor
                · have h0 := applyKwargs_field (fun x => x.session_id) "session_id"
                    (fun s0 k v => (setattrSession_fields s0 k v).1) kwargs s
                  rw [hsid] at h0
                  simpa using h0
                · intro huid
                  have h0 := applyKwargs_field (fun x => x.user_id) "user_id"
                    (fun s0 k v => (setattrSession_fields s0 k v).2.1) kwargs s
                  rw [huid] at h0
                  simpa using h0
          · rw [heapModify_get?_ne _ _ _ _ hir]
            exact ⟨rfl, fun _ => rfl⟩

theorem C5_identity_fields_preserved_witness :
    ((mgrFixture (Val.atom (.vstr "u1")) (Val.atom (.vnum 1)) 5).heap.get? 0).map
        Session.session_id =
      (mgr1.heap.get? 0).map Session.session_id ∧
    (lookupLast "user_id" [("progress", Val.atom (.vnum 1))] = none →
      ((mgrFixture (Val.atom (.vstr "u1")) (Val.atom (.vnum 1)) 5).heap.get? 0).map
          Session.user_id =
        (mgr1.heap.get? 0).map Session.user_id) :=
  C5_identity_fields_preserved mgr1 (Val.atom (.vstr "s1"))
    [("progress", Val.atom (.vnum 1))] 5
    (true, mgrFixture (Val.atom (.vstr "u1")) (Val.atom (.vnum 1)) 5) (by decide) 0

lemma foldl_delKey_eq_filter (ks : List Val) (d : List (Val × Nat)) :
    ks.foldl delKey d = d.filter (fun kr => decide (kr.1 ∉ ks)) := by
  induction ks generalizing d with
  | nil => simp
  | cons k ks ih =>
      simp only [List.foldl_cons]
      rw [ih]
      unfold delKey
      rw [List.filter_filter]
      apply List.filter_congr
      intro kr _
      by_cases h1 : kr.1 = k <;> by_cases h2 : kr.1 ∈ ks <;>
        simp [h1, h2]

lemma collected_filter_eq (d : List (Val × Nat)) (p : Val × Nat → Bool)
    (hnd : (d.map (·.1)).Nodup) :
    d.filter (fun kr => decide (kr.1 ∉ (d.filter p).map (·.1))) =
      d.filter (fun kr => !(p kr)) := by
  apply List.filter_congr
  intro kr hmem
  by_cases hp : p kr = true
  · have hin : kr.1 ∈ (d.filter p).map (·.1) :=
      List.mem_map_of_mem _ (List.mem_filter.mpr ⟨hmem, hp⟩)
    simp [hin, hp]
  · have hnotin : kr.1 ∉ (d.filter p).map (·.1) := by
      intro hin
      obtain ⟨kr2, hkr2, heq⟩ := List.mem_map.mp hin
      have hkr2d := (List.mem_filter.mp hkr2).1
      have hkr2p := (List.mem_filter.mp hkr2).2
      have hkk : kr2 = kr := List.inj_on_of_nodup_map hnd hkr2d hmem heq
      rw [hkk] at hkr2p
      exact hp hkr2p
    simp [hnotin, hp]

lemma lookupKey_eq_none (d : List (Val × Nat)) (k : Val)
    (h : k ∉ d.map (·.1)) : lookupKey k d = none := by
  induction d with
  | nil => rfl
  | cons kv rest ih =>
      rw [List.map_cons, List.mem_cons, not_or] at h
      rw [lookupKey, if_neg (fun hc => h.1 hc.symm)]
      exact ih h.2

lemma lookupKey_filter (d : List (Val × Nat)) (p : Val × Nat → Bool) (k : Val) (r : Nat)
    (hnd : (d.map (·.1)).Nodup) (hmem : (k, r) ∈ d) :
    lookupKey k (d.filter p) = if p (k, r) then some r else none := by
  induction d with
  | nil => cases hmem
  | cons kv rest ih =>
      obtain ⟨k2, r2⟩ := kv
      rw [List.map_cons, List.nodup_cons] at hnd
      rcases List.mem_cons.mp hmem with heq | hmem2
      · injection heq with h1 h2
        subst h1
        subst h2
        rw [List.filter_cons]
        by_cases hp : p (k, r) = true
        · rw [if_pos hp, lookupKey, if_pos rfl, if_pos hp]
        · rw [if_neg hp, if_neg hp]
          refine lookupKey_eq_none _ _ (fun hin => hnd.1 ?_)
          obtain ⟨x, hx, he⟩ := List.mem_map.mp hin
          exact List.mem_map.mpr ⟨x, (List.mem_filter.mp hx).1, he⟩
      · have hkne : k2 ≠ k := by
          intro hc
          refine hnd.1 ?_
          rw [hc]
          exact List.mem_map.mpr ⟨(k, r), hmem2, rfl⟩
        rw [List.filter_cons]
        by_cases hp : p (k2, r2) = true
        · rw [if_pos hp, lookupKey, if_neg hkne]
          exact ih hnd.2 hmem2
        · rw [if_neg hp]
          exact ih hnd.2 hmem2

/-- C3 counterexample: at clock 3600 s with a 30-minute timeout, the
session `s1` (idle for 60 minutes) is evicted, yet the call returns
`None` — the Python function has no `return` statement, so the evicted
ids are printed but never returned to the caller, refuting the claim
that the sequence of evicted `session_id`s is returned. -/
theorem C3_counterexample :
    (cleanup_inactive_sessions mgr1 3600 30).2 = none ∧
    (cleanup_inactive_sessions mgr1 3600 30).2 ≠ some [Val.atom (.vstr "s1")] ∧
    get_session_status (cleanup_inactive_sessions mgr1 3600 30).1
      (Val.atom (.vstr "s1")) = none := by
  have hexp : sessionExpired mgr1.heap 3600 30 0 = true := by
    show decide (((3600 : ℚ) - 0) / 60 > 30) = true
    refine decide_eq_true ?_
    norm_num
  have hfil : List.filter (fun kr => sessionExpired mgr1.heap 3600 30 kr.2)
      [(Val.atom (.vstr "s1"), 0)] = [(Val.atom (.vstr "s1"), 0)] := by
    rw [List.filter_cons, if_pos hexp]
    rfl
  have hdict : (cleanup_inactive_sessions mgr1 3600 30).1.active_sessions = [] := by
    show List.foldl delKey [(Val.atom (.vstr "s1"), 0)]
      ((List.filter (fun kr => sessionExpired mgr1.heap 3600 30 kr.2)
        [(Val.atom (.vstr "s1"), 0)]).map (·.1)) = []
    rw [hfil]
    decide
  refine ⟨rfl, ?_, ?_⟩
  · show (none : Option (List Val)) ≠ some [Val.atom (.vstr "s1")]
    decide
  · unfold get_session_status
    rw [hdict]
    rfl

/-- C3 (amended): `cleanup_inactive_sessions(timeout)` removes exactly
the sessions whose age `(now - last_activity)/60` is strictly greater
than the timeout (a session whose age equals the timeout is retained),
leaves the heap — and so every surviving session's fields — unchanged,
and returns `None` rather than the sequence of evicted ids. -/
theorem C3_cleanup_contract (m : SessionManager) (now t : ℚ)
    (hnd : (m.active_sessions.map (·.1)).Nodup) :
    cleanup_inactive_sessions m now t =
      ({ m with active_sessions := m.active_sessions.filter (fun kr => !(sessionExpired m.heap now t kr.2)) }, none) ∧
    ∀ k r s, (k, r) ∈ m.active_sessions → m.heap.get? r = some s →
      get_session_status (cleanup_inactive_sessions m now t).1 k =
        (if (now - s.last_activity) / 60 > t then none else some s) := by
  have hmain : cleanup_inactive_sessions m now t =
      ({ m with active_sessions := m.active_sessions.filter (fun kr => !(sessionExpired m.heap now t kr.2)) }, none) := by
    simp only [cleanup_inactive_sessions]
    rw [foldl_delKey_eq_filter,
      collected_filter_eq _ _ hnd]
  refine ⟨hmain, ?_⟩
  intro k r s hmem hs
  rw [hmain]
  simp only [get_session_status]
  rw [lookupKey_filter _ _ _ _ hnd hmem]
  have hexpval : sessionExpired m.heap now t r =
      decide ((now - s.last_activity) / 60 > t) := by
    unfold sessionExpired
    rw [hs]
  by_cases hexp : (now - s.last_activity) / 60 > t
  · rw [if_pos hexp]
    have : sessionExpired m.heap now t r = true := by
      rw [hexpval]
      exact decide_eq_true hexp
    simp [this]
  · rw [if_neg hexp]
    have hfalse : sessionExpired m.heap now t r = false := by
      rw [hexpval]
      exact decide_eq_false hexp
    simp [hfalse]
    simpa using hs

theorem C3_cleanup_contract_witness :
    get_session_status (cleanup_inactive_sessions mgr1 1800 30).1
      (Val.atom (.vstr "s1")) = some sess1 := by
  have h := (C3_cleanup_contract mgr1 1800 30 (by decide)).2
    (Val.atom (.vstr "s1")) 0 sess1 (by decide) (by decide)
  rw [h, if_neg (by norm_num [sess1])]

lemma derefList_congr (h1 h2 : List Session) (refs : List Nat)
    (h : ∀ r ∈ refs, h2.get? r = h1.get? r) :
    derefList h2 refs = derefList h1 refs := by
  unfold derefList
  induction refs with
  | nil => rfl
  | cons a rest ih =>
      simp only [List.map_cons]
      rw [h a (List.mem_cons_self a rest),
        ih (fun r hr => h r (List.mem_cons_of_mem _ hr))]

/-- C4 counterexample: after `refs := get_all_sessions`, an
`update_session` call that returns normally changes the field values
observed through the already-returned sequence — `list(...)` copies
the list, but its elements are the live `Session` objects, which
`update_session` mutates in place. -/
theorem C4_counterexample :
    update_session mgr1 (Val.atom (.vstr "s1"))
        [("progress", Val.atom (.vnum 1))] 5 =
      .ok (true, mgrFixture (Val.atom (.vstr "u1")) (Val.atom (.vnum 1)) 5) ∧
    derefList (mgrFixture (Val.atom (.vstr "u1")) (Val.atom (.vnum 1)) 5).heap
        (get_all_sessions mgr1) ≠
      derefList mgr1.heap (get_all_sessions mgr1) ∧
    derefList (mgrFixture (Val.atom (.vstr "u1")) (Val.atom (.vnum 1)) 5).heap
        (get_all_sessions mgr1) =
      [some { sess1 with progress := Val.atom (.vnum 1), last_activity := 5 }] := by
  refine ⟨by decide, by decide, by decide⟩

/-- C4 (amended): the sequence returned by `get_all_sessions` is a
snapshot of the registry membership, and `register_session` and
`cleanup_inactive_sessions` performed afterwards do not change the
records it holds; but the records are shared by reference, so a
subsequent `update_session` that returns normally (a call whose
mapping raises no `TypeError`) is visible through the already-returned
sequence — the updated session's record shows the applied kwargs and
the refreshed `last_activity`, while the other listed records stay
unchanged. -/
theorem C4_get_all_sessions_snapshot (m : SessionManager) (hWF : m.WF) :
    (∀ sid uid now,
      derefList (register_session m sid uid now).2.heap (get_all_sessions m) =
        derefList m.heap (get_all_sessions m)) ∧
    (∀ now t,
      derefList (cleanup_inactive_sessions m now t).1.heap (get_all_sessions m) =
        derefList m.heap (get_all_sessions m)) ∧
    (∀ sid kwargs now r, lookupKey sid m.active_sessions = some r →
      r ∈ get_all_sessions m ∧
      ∀ res, update_session m sid kwargs now = Except.ok res →
        (∀ s, m.heap.get? r = some s →
          res.2.heap.get? r =
            some { kwargs.foldl (fun acc kv => setattrSession acc kv.1 kv.2) s with
                   last_activity := now }) ∧
        (∀ x, x ∈ get_all_sessions m → x ≠ r →
          res.2.heap.get? x = m.heap.get? x)) := by
  refine ⟨?_, ?_, ?_⟩
  · intro sid uid now
    cases hl : lookupKey sid m.active_sessions with
    | some r2 => simp [register_session, hl]
    | none =>
        simp only [register_session, hl]
        apply derefList_congr
        intro x hx
        obtain ⟨kr, hkr, hx2⟩ := List.mem_map.mp hx
        subst hx2
        simp only [List.get?_eq_getElem?]
        exact List.getElem?_append_left (hWF.2.2 _ hkr)
  · intro now t
    rfl
  · intro sid kwargs now r hr
    refine ⟨List.mem_map.mpr ⟨(sid, r), lookupKey_mem _ _ _ hr, rfl⟩, ?_⟩
    intro res hres
    cases hcol : collidingKey kwargs with
    | some k =>
        rw [update_session_colliding m sid kwargs now k hcol] at hres
        cases hres
    | none =>
        rw [update_session_found m sid kwargs now r hcol hr] at hres
        cases hres
        dsimp only
        constructor
        · intro s hs
          rw [heapModify_get?_eq, hs, Option.map_some']
        · intro x hx hxr
          exact heapModify_get?_ne _ _ _ _ hxr

theorem C4_get_all_sessions_snapshot_witness :
    derefList (register_session mgr1 (Val.atom (.vstr "s2"))
        (Val.atom (.vstr "u2")) 7).2.heap (get_all_sessions mgr1) =
      derefList mgr1.heap (get_all_sessions mgr1) ∧
    (mgrFixture (Val.atom (.vstr "u1")) (Val.atom (.vnum 1)) 5).heap.get? 0 =
      some { sess1 with progress := Val.atom (.vnum 1), last_activity := 5 } := by
  have h := C4_get_all_sessions_snapshot mgr1 (by unfold SessionManager.WF; decide)
  refine ⟨h.1 _ _ 7, ?_⟩
  have h2 := ((h.2.2 (Val.atom (.vstr "s1")) [("progress", Val.atom (.vnum 1))] 5 0
      (by decide)).2 (true, mgrFixture (Val.atom (.vstr "u1")) (Val.atom (.vnum 1)) 5)
      (by decide)).1 sess1 (by decide)
  exact h2

/-- C6 counterexample: a syntactically valid payload whose `command`
discriminator is unrecognized falls through the `if`/`elif` chain of
`handle_message` with no `else` branch — the sender receives no reply
at all (in particular no error reply), refuting the claim that
unrecognized commands are reported to the offending client. -/
theorem C6_counterexample :
    handle_message SessionManager.init
      (InMsg.payload [("command", Val.atom (.vstr "bogus"))]) 0 =
      (SessionManager.init, []) := by
  decide

/-- C6 (amended): a payload that fails to parse yields a single
`error` reply to the sender; a parsed non-object payload and an
`update_session` command whose `updates` value is not a mapping raise
inside the `try` body and degrade to a single `error` reply (so no
exception escapes the handler and the connection's receive loop keeps
running); but a syntactically valid object whose `command` matches none
of the three recognized commands produces no reply at all and leaves
the registry unchanged. -/
theorem C6_handle_message_contract (m : SessionManager) (now : ℚ) :
    (handle_message m .malformed now =
      (m, [.error_reply "Invalid JSON format"])) ∧
    (∀ v, handle_message m (.nonObject v) now =
      (m, [.error_reply "AttributeError: object has no attribute get"])) ∧
    (∀ data, dictGet data "command" = .atom (.vstr "update_session") →
      (∀ kvs, dictGetD data "updates" (.vdict []) ≠ .vdict kvs) →
      handle_message m (.payload data) now =
        (m, [.error_reply "TypeError: argument after ** must be a mapping"])) ∧
    (∀ data, dictGet data "command" ≠ .atom (.vstr "register_session") →
      dictGet data "command" ≠ .atom (.vstr "update_session") →
      dictGet data "command" ≠ .atom (.vstr "get_sessions") →
      handle_message m (.payload data) now = (m, [])) := by
  refine ⟨rfl, fun v => rfl, ?_, ?_⟩
  · intro data hcmd hupd
    simp only [handle_message, handle_body]
    rw [hcmd]
    rw [if_neg (by decide), if_pos rfl]
  · intro data h1 h2 h3
    simp only [handle_message, handle_body]
    rw [if_neg h1, if_neg h2, if_neg h3]

theorem C6_handle_message_contract_witness :
    handle_message SessionManager.init InMsg.malformed 0 =
      (SessionManager.init, [.error_reply "Invalid JSON format"]) ∧
    handle_message SessionManager.init
      (InMsg.payload [("command", Val.atom (.vstr "update_session")),
        ("updates", Val.atom (.vnum 3))]) 0 =
      (SessionManager.init,
        [.error_reply "TypeError: argument after ** must be a mapping"]) := by
  have h := C6_handle_message_contract SessionManager.init 0
  refine ⟨h.1, ?_⟩
  refine h.2.2.1 _ (by decide) ?_
  intro kvs hc
  rw [show dictGetD [("command", Val.atom (.vstr "update_session")),
      ("updates", Val.atom (.vnum 3))] "updates" (.vdict []) =
      Val.atom (.vnum 3) from by decide] at hc
  cases hc

lemma broadcastLoop_eq (closed : Nat → Bool) (message : Val) (clients : List Nat) :
    broadcastLoop closed message clients =
      ((clients.filter (fun c => !closed c)).map (fun c => (c, message)),
       clients.filter closed) := by
  induction clients with
  | nil => rfl
  | cons c rest ih =>
      simp only [broadcastLoop, ih]
      cases hc : closed c <;> simp [hc, List.filter_cons]

/-- C7: every connected client whose send succeeds receives the
broadcast message; a client whose send raises `ConnectionClosed` is
removed from the connected set; and the set of performed sends is
exactly the successful clients paired with the message, independent of
which other clients failed — one client's failure does not affect
delivery to the rest. -/
theorem C7_broadcast_update_contract (clients : List Nat) (closed : Nat → Bool)
    (message : Val) :
    (broadcast_update clients closed message).1 =
      (clients.filter (fun c => !closed c)).map (fun c => (c, message)) ∧
    (broadcast_update clients closed message).2 =
      clients.filter (fun c => !closed c) ∧
    ∀ c ∈ clients,
      (closed c = false → (c, message) ∈ (broadcast_update clients closed message).1) ∧
      (closed c = true → c ∉ (broadcast_update clients closed message).2) := by
  have hb : broadcast_update clients closed message =
      ((clients.filter (fun c => !closed c)).map (fun c => (c, message)),
       clients.filter (fun c => !closed c)) := by
    cases clients with
    | nil => rfl
    | cons c rest =>
        unfold broadcast_update
        rw [if_neg (by simp), broadcastLoop_eq]
        refine congrArg _ ?_
        apply List.filter_congr
        intro x hx
        by_cases hcx : closed x = true
        · have hxin : x ∈ (c :: rest).filter closed :=
            List.mem_filter.mpr ⟨hx, hcx⟩
          simp [hxin, hcx]
        · have hxout : x ∉ (c :: rest).filter closed := by
            intro hxin
            exact hcx (List.mem_filter.mp hxin).2
          simp [hxout, hcx]
  refine ⟨by rw [hb], by rw [hb], ?_⟩
  intro c hc
  constructor
  · intro hok
    rw [hb]
    exact List.mem_map.mpr ⟨c, List.mem_filter.mpr ⟨hc, by simp [hok]⟩, rfl⟩
  · intro hbad
    rw [hb]
    intro hcin
    have := (List.mem_filter.mp hcin).2
    rw [hbad] at this
    cases this

theorem C7_broadcast_update_contract_witness :
    (broadcast_update [1, 2, 3, 4] (fun c => decide (c = 4))
        (Val.atom (.vstr "sweep"))).1 =
      [(1, Val.atom (.vstr "sweep")), (2, Val.atom (.vstr "sweep")),
        (3, Val.atom (.vstr "sweep"))] ∧
    4 ∉ (broadcast_update [1, 2, 3, 4] (fun c => decide (c = 4))
        (Val.atom (.vstr "sweep"))).2 ∧
    (1, Val.atom (.vstr "sweep")) ∈ (broadcast_update [1, 2, 3, 4]
        (fun c => decide (c = 4)) (Val.atom (.vstr "sweep"))).1 := by
  have h := C7_broadcast_update_contract [1, 2, 3, 4]
    (fun c => decide (c = 4)) (Val.atom (.vstr "sweep"))
  exact ⟨by rw [h.1]; rfl, (h.2.2 4 (by decide)).2 (by decide),
    (h.2.2 1 (by decide)).1 (by decide)⟩

/-- C8 counterexample: `save_session` and `load_sessions` catch only
`ImportError` (`except ImportError: pass`), so an operational storage
failure — the backend present but unable to open or write the database
file — propagates as an exception into the caller (the live
coordination path), refuting the claim that durability failures never
raise. -/
theorem C8_counterexample :
    save_session SqliteBackend.ioFault sess1 0 =
      .error "sqlite3.OperationalError: unable to open database file" ∧
    load_sessions SqliteBackend.ioFault =
      .error "sqlite3.OperationalError: unable to open database file" := by
  exact ⟨rfl, rfl⟩

/-- C8 (amended): the only durability failure that is tolerated is the
`sqlite3` module being unavailable (`ImportError`): then `save_session`
is a no-op returning normally and `load_sessions` returns the empty
list, and neither function touches the in-memory registry (they do not
receive it at all); with the backend present, a save is the upsert of
the session's row and raises nothing.  Any other storage failure
(an operational error while connecting or writing) propagates as an
exception, as the counterexample shows. -/
theorem C8_durability_failures (s : Session) (now : ℚ) (rows : List SessionRow) :
    save_session SqliteBackend.unavailable s now = .ok SqliteBackend.unavailable ∧
    load_sessions SqliteBackend.unavailable = .ok [] ∧
    save_session (SqliteBackend.avail rows) s now =
      .ok (.avail (upsertRow rows (rowOfSession s now))) ∧
    load_sessions (SqliteBackend.avail rows) = .ok (rows.map sessionOfRow) := by
  exact ⟨rfl, rfl, rfl, rfl⟩

lemma saveAll_avail (now : ℚ) (ss : List Session) (rows : List SessionRow) :
    saveAllSessions (.avail rows) now ss =
      .ok (.avail (ss.foldl (fun acc s => upsertRow acc (rowOfSession s now)) rows)) := by
  induction ss generalizing rows with
  | nil => rfl
  | cons s rest ih => simp only [saveAllSessions, save_session, List.foldl_cons, ih]

lemma foldl_upsert_fresh (now : ℚ) (ss : List Session) :
    ∀ rows : List SessionRow, (ss.map Session.session_id).Nodup →
    (∀ x ∈ rows, x.session_id ∉ ss.map Session.session_id) →
    ss.foldl (fun acc s => upsertRow acc (rowOfSession s now)) rows =
      rows ++ ss.map (fun s => rowOfSession s now) := by
  induction ss with
  | nil => intro rows _ _; simp
  | cons s rest ih =>
      intro rows hnd hrows
      rw [List.map_cons, List.nodup_cons] at hnd
      simp only [List.foldl_cons]
      have hkeep : upsertRow rows (rowOfSession s now) =
          rows ++ [rowOfSession s now] := by
        unfold upsertRow
        rw [List.filter_eq_self.mpr]
        intro x hx
        have hne : x.session_id ≠ s.session_id := by
          intro hc
          exact hrows x hx (by rw [hc]; exact List.mem_cons_self _ _)
        simp [rowOfSession, hne]
      rw [hkeep, ih (rows ++ [rowOfSession s now]) hnd.2 ?_, List.map_cons,
        List.append_assoc]
      · rfl
      · intro x hx
        rcases List.mem_append.mp hx with hx1 | hx2
        · intro hin
          exact hrows x hx1 (List.mem_cons_of_mem _ hin)
        · rw [List.mem_singleton.mp hx2]
          exact hnd.1

lemma roundtrip_projections (now : ℚ) (ss : List Session) :
    ((ss.map (fun s => rowOfSession s now)).map sessionOfRow).map Session.session_id =
        ss.map Session.session_id ∧
    ((ss.map (fun s => rowOfSession s now)).map sessionOfRow).map Session.status =
        ss.map Session.status ∧
    ((ss.map (fun s => rowOfSession s now)).map sessionOfRow).map Session.progress =
        ss.map Session.progress := by
  induction ss with
  | nil => exact ⟨rfl, rfl, rfl⟩
  | cons s rest ih =>
      refine ⟨?_, ?_, ?_⟩
      · simp only [List.map_cons]
        rw [ih.1]
        rfl
      · simp only [List.map_cons]
        rw [ih.2.1]
        rfl
      · simp only [List.map_cons]
        rw [ih.2.2]
        rfl

/-- C9: saving every session of the Store into a freshly initialized
database and loading the rows back yields sessions with the same list
of `session_id`s and identical `status` and `progress` values, id for
id (the Store's dict keys make the saved `session_id`s pairwise
distinct). -/
theorem C9_save_load_roundtrip (ss : List Session) (now : ℚ)
    (hnd : (ss.map Session.session_id).Nodup) :
    ∃ db, saveAllSessions (.avail []) now ss = .ok db ∧
      ∃ loaded, load_sessions db = .ok loaded ∧
        loaded.map Session.session_id = ss.map Session.session_id ∧
        loaded.map Session.status = ss.map Session.status ∧
        loaded.map Session.progress = ss.map Session.progress := by
  refine ⟨_, saveAll_avail now ss [], ?_⟩
  rw [foldl_upsert_fresh now ss [] hnd (by simp), List.nil_append]
  refine ⟨_, rfl, ?_⟩
  exact roundtrip_projections now ss

/-- A second session with a different id, an advanced task state and a
later `last_activity`, used to exercise the round trip. -/
def sess2 : Session :=
  { session_id := Val.atom (.vstr "s2")
    user_id := Val.atom (.vstr "u2")
    status := Val.atom (.vstr "idle")
    current_task := Val.atom (.vstr "deploying")
    progress := Val.atom (.vnum 1)
    last_activity := 9
    resources_used := Val.vdict [("cpu", .vnum 2)] }

theorem C9_save_load_roundtrip_witness :
    ∃ db, saveAllSessions (.avail []) 7 [sess1, sess2] = .ok db ∧
      ∃ loaded, load_sessions db = .ok loaded ∧
        loaded.map Session.session_id = [sess1, sess2].map Session.session_id ∧
        loaded.map Session.status = [sess1, sess2].map Session.status ∧
        loaded.map Session.progress = [sess1, sess2].map Session.progress :=
  C9_save_load_roundtrip [sess1, sess2] 7 (by decide)

lemma register_session_existing (m : SessionManager) (sid uid : Val) (now : ℚ)
    (r : Nat) (h : lookupKey sid m.active_sessions = some r) :
    register_session m sid uid now = (false, m) := by
  simp [register_session, h]

/-- C10: a syntactically valid `register_session` command whose payload
omits the `session_id` key is not rejected: `data.get('session_id')`
yields `None`, a session keyed by `None` is registered (with `user_id`
equal to whatever `data.get('user_id')` yields — also `None` when that
key is omitted), the requester receives `registration_response` with
`success = true`, and a second identical command receives `success =
false` with the registry unchanged. -/
theorem C10_register_without_session_id (m : SessionManager)
    (data : List (String × Val)) (now now2 : ℚ)
    (hcmd : dictGet data "command" = .atom (.vstr "register_session"))
    (hsid : lookupKey "session_id" data = none)
    (hnew : lookupKey (Val.atom .vnone) m.active_sessions = none) :
    ∃ m2, handle_message m (.payload data) now =
        (m2, [.registration_response true (.atom .vnone)]) ∧
      get_session_status m2 (.atom .vnone) =
        some { session_id := .atom .vnone
               user_id := dictGet data "user_id"
               status := .atom (.vstr "active")
               current_task := .atom (.vstr "initializing")
               progress := .atom (.vnum 0)
               last_activity := now
               resources_used := .vdict [] } ∧
      (lookupKey "user_id" data = none →
        (get_session_status m2 (.atom .vnone)).map Session.user_id =
          some (.atom .vnone)) ∧
      handle_message m2 (.payload data) now2 =
        (m2, [.registration_response false (.atom .vnone)]) := by
  have hgetsid : dictGet data "session_id" = .atom .vnone := by
    unfold dictGet
    rw [hsid]
  have hreg2 : get_session_status
      (register_session m (.atom .vnone) (dictGet data "user_id") now).2
      (.atom .vnone) =
      some { session_id := .atom .vnone
             user_id := dictGet data "user_id"
             status := .atom (.vstr "active")
             current_task := .atom (.vstr "initializing")
             progress := .atom (.vnum 0)
             last_activity := now
             resources_used := .vdict [] } := by
    simp only [register_session, hnew, get_session_status]
    rw [lookupKey_append_last _ _ _ hnew]
    simp [get?_append_length]
  have hfound : lookupKey (Val.atom .vnone)
      (register_session m (.atom .vnone) (dictGet data "user_id") now).2.active_sessions =
      some m.heap.length := by
    simp only [register_session, hnew]
    exact lookupKey_append_last _ _ _ hnew
  refine ⟨(register_session m (.atom .vnone) (dictGet data "user_id") now).2,
    ?_, hreg2, ?_, ?_⟩
  · simp only [handle_message, handle_body]
    rw [hcmd, if_pos rfl, hgetsid]
    simp [register_session, hnew]
  · intro hu
    rw [hreg2, Option.map_some']
    show some (dictGet data "user_id") = some (Val.atom .vnone)
    unfold dictGet
    rw [hu]
  · simp only [handle_message, handle_body]
    rw [hcmd, if_pos rfl, hgetsid,
      register_session_existing _ _ _ now2 _ hfound]

theorem C10_register_without_session_id_witness :
    ∃ m2, handle_message SessionManager.init
        (.payload [("command", Val.atom (.vstr "register_session"))]) 0 =
        (m2, [.registration_response true (.atom .vnone)]) ∧
      get_session_status m2 (.atom .vnone) =
        some { session_id := .atom .vnone
               user_id := dictGet [("command", Val.atom (.vstr "register_session"))] "user_id"
               status := .atom (.vstr "active")
               current_task := .atom (.vstr "initializing")
               progress := .atom (.vnum 0)
               last_activity := 0
               resources_used := .vdict [] } ∧
      (lookupKey "user_id" [("command", Val.atom (.vstr "register_session"))] = none →
        (get_session_status m2 (.atom .vnone)).map Session.user_id =
          some (.atom .vnone)) ∧
      handle_message m2
        (.payload [("command", Val.atom (.vstr "register_session"))]) 1 =
        (m2, [.registration_response false (.atom .vnone)]) :=
  C10_register_without_session_id SessionManager.init
    [("command", Val.atom (.vstr "register_session"))] 0 1
    (by decide) (by decide) (by decide)

theorem C8_durability_failures_witness :
    save_session SqliteBackend.unavailable sess1 0 = .ok SqliteBackend.unavailable ∧
    load_sessions SqliteBackend.unavailable = .ok [] :=
  ⟨(C8_durability_failures sess1 0 []).1, (C8_durability_failures sess1 0 []).2.1⟩
